import Mathlib

/-!
Shallow embedding of the `envfury` Rust library (`src/lib.rs`, `src/custom.rs`):
typed retrieval of process environment variables.

The process environment table is modelled as an explicit map from variable
names to entries; an entry is either valid Unicode text or a marker for an
OS-level value that is not valid Unicode (the Rust code discards the payload
of `VarError::NotUnicode`, so the marker carries none).  The `FromStr`
parsing capability of a target type `T` with error type `E` is modelled as
an explicit function `String → Except E T` passed to each retrieval
function.  Every retrieval function is a pure function of the parser, the
environment table and its own arguments.
-/

namespace Envfury

/-- An entry of the environment table: valid Unicode text, or a non-Unicode
OS value (payload discarded, as in the Rust code). -/
inductive EnvVal : Type where
  | str (s : String)
  | nonUnicode
deriving DecidableEq, Repr

/-- The process environment table: a read-only map from variable names to
entries; `none` means the variable is not set. -/
def Env : Type := String → Option EnvVal

/-- Rust `std::env::VarError`: the error of `std::env::var`. -/
inductive VarError : Type where
  | NotPresent
  | NotUnicode
deriving DecidableEq, Repr

/-- Rust `std::env::var`: the raw environment lookup used by `maybe`. -/
def var (env : Env) (key : String) : Except VarError String :=
  match env key with
  | none => .error .NotPresent
  | some .nonUnicode => .error .NotUnicode
  | some (.str s) => .ok s

/-- Error from reading the env var (`struct Error<T>` in `lib.rs`):
the variable name paired with a typed reason. -/
structure Error (T : Type) : Type where
  key : String
  reason : T
deriving DecidableEq, Repr

/-- Rust `Error::new`. -/
def Error.new {T : Type} (key : String) (reason : T) : Error T :=
  { key := key, reason := reason }

/-- Rust `Error::map_reason`: map the reason to change the error type,
keeping the key. -/
def Error.map_reason {T U : Type} (e : Error T) (map : T → U) : Error U :=
  { key := e.key, reason := map e.reason }

/-- Rust `enum ValueError<T>`: error while processing the value. -/
inductive ValueError (T : Type) : Type where
  | NonUnicode
  | Parse (err : T)
deriving DecidableEq, Repr

/-- Rust `enum MustError<T>`: error while processing a required variable. -/
inductive MustError (T : Type) : Type where
  | NotSet
  | Value (v : ValueError T)
deriving DecidableEq, Repr

/-- Rust `enum OrParseError<T>`: error while processing a variable or
parsing its default. -/
inductive OrParseError (T : Type) : Type where
  | Value (v : ValueError T)
  | ParseDefault (err : T)
deriving DecidableEq, Repr

/-- Rust `maybe<T>`: get the value of environment variable `key` and parse
it into the type `T` if the variable is set; `none` if it is not set;
an error if the value is invalid Unicode or could not be parsed. -/
def maybe {T E : Type} (p : String → Except E T) (env : Env) (key : String) :
    Except (Error (ValueError E)) (Option T) :=
  match var env key with
  | .error .NotPresent => .ok none
  | .error .NotUnicode => .error (Error.new key ValueError.NonUnicode)
  | .ok val =>
    match p val with
    | .error err => .error (Error.new key (ValueError.Parse err))
    | .ok v => .ok (some v)

/-- Rust `must<T>`: like `maybe` but the variable must be set. -/
def must {T E : Type} (p : String → Except E T) (env : Env) (key : String) :
    Except (Error (MustError E)) T :=
  match maybe p env key with
  | .ok (some val) => .ok val
  | .ok none => .error (Error.new key MustError.NotSet)
  | .error err => .error (err.map_reason MustError.Value)

/-- Rust `or<T>`: like `maybe` but returns the eager `default` when the
variable is not set (`val.unwrap_or(default)`). -/
def or {T E : Type} (p : String → Except E T) (env : Env) (key : String)
    (default : T) : Except (Error (ValueError E)) T :=
  match maybe p env key with
  | .error err => .error err
  | .ok val => .ok (val.getD default)

/-- Rust `Option::unwrap_or_else`: the inner value, or the result of
invoking the zero-argument callback. -/
def unwrap_or_else {T : Type} (o : Option T) (f : Unit → T) : T :=
  match o with
  | some v => v
  | none => f ()

/-- Rust `or_else<T, F>`: like `or` but the default is produced by a
zero-argument callback (`val.unwrap_or_else(default)`). -/
def or_else {T E : Type} (p : String → Except E T) (env : Env) (key : String)
    (default : Unit → T) : Except (Error (ValueError E)) T :=
  match maybe p env key with
  | .error err => .error err
  | .ok val => .ok (unwrap_or_else val default)

/-- Instrumented `Option::unwrap_or_else`: the same result paired with the
number of times the callback is invoked along that control path. -/
def unwrap_or_else_count {T : Type} (o : Option T) (f : Unit → T) : T × Nat :=
  match o with
  | some v => (v, 0)
  | none => (f (), 1)

/-- Instrumented `or_else`: identical control flow, additionally returning
how many times the callback `default` is invoked. -/
def or_else_count {T E : Type} (p : String → Except E T) (env : Env)
    (key : String) (default : Unit → T) :
    Except (Error (ValueError E)) T × Nat :=
  match maybe p env key with
  | .error err => (.error err, 0)
  | .ok val =>
    let r := unwrap_or_else_count val default
    (.ok r.1, r.2)

/-- Rust `or_parse<T>`: like `maybe`, re-wrapping errors as
`OrParseError::Value`; when the variable is not set, parses the textual
`default`, failing with `OrParseError::ParseDefault` if that fails. -/
def or_parse {T E : Type} (p : String → Except E T) (env : Env) (key : String)
    (default : String) : Except (Error (OrParseError E)) T :=
  match maybe p env key with
  | .error err => .error (err.map_reason OrParseError.Value)
  | .ok (some val) => .ok val
  | .ok none =>
    match p default with
    | .error err => .error (Error.new key (OrParseError.ParseDefault err))
    | .ok val => .ok val

/-- Rust `struct Custom<T>` (`custom.rs`): generic wrapper bridging the
override parsing capability to the standard one. -/
structure Custom (T : Type) : Type where
  val : T
deriving DecidableEq, Repr

/-- Rust `impl std::str::FromStr for Custom<T>`: delegates to the override
conversion `q` (the `custom::FromStr` implementation for `T`) and wraps a
successful result in `Custom`. -/
def Custom.from_str {T E : Type} (q : String → Except E T) (s : String) :
    Except E (Custom T) :=
  match q s with
  | .error err => .error err
  | .ok val => .ok (Custom.mk val)

/-! ### Concrete fixtures used by the witnesses

A small executable parser for `Nat` (standing in for a `FromStr` type) and a
concrete environment table covering all entry shapes. -/

/-- Fold a digit list into a number; `none` on a non-digit character. -/
def natDigits : List Char → Nat → Option Nat
  | [], acc => some acc
  | c :: cs, acc =>
    if c.isDigit then natDigits cs (acc * 10 + (c.toNat - 48))
    else none

/-- A concrete parsing capability for `Nat` with `String` errors. -/
def parseNat (s : String) : Except String Nat :=
  match s.data with
  | [] => Except.error "empty input"
  | cs =>
    match natDigits cs 0 with
    | some n => Except.ok n
    | none => Except.error "invalid digit"

/-- A concrete environment table: one parseable entry, one unparseable
entry, one non-Unicode entry, one empty-string entry; all else unset. -/
def testEnv : Env := fun k =>
  if k = "PORT" then some (EnvVal.str "8080")
  else if k = "BAD" then some (EnvVal.str "abc")
  else if k = "NU" then some EnvVal.nonUnicode
  else if k = "EMPTY" then some (EnvVal.str "")
  else none

/-- A second environment table agreeing with `testEnv` at `PORT` but
differing elsewhere. -/
def testEnvTwo : Env := fun k =>
  if k = "PORT" then some (EnvVal.str "8080")
  else if k = "OTHER" then some (EnvVal.str "1")
  else none

/-- The override conversion from the `custom.rs` doc example:
`"one" → 1`, `"two" → 2`, anything else an error. -/
def oneTwoFromStr (s : String) : Except String Nat :=
  if s = "one" then Except.ok 1
  else if s = "two" then Except.ok 2
  else Except.error "not \"one\" or \"two\""

/-- Environment with `K` set to `"one"`. -/
def envKOne : Env := fun k => if k = "K" then some (EnvVal.str "one") else none

/-- Environment with `K` set to `"three"`. -/
def envKThree : Env := fun k => if k = "K" then some (EnvVal.str "three") else none

/-! ### Helper lemmas -/

/-- Exhaustive characterization of `maybe`: exactly one of the four source
branches applies, determined by the environment entry and the parser. -/
theorem maybe_total {T E : Type} (p : String → Except E T) (env : Env)
    (key : String) :
    (env key = none ∧ maybe p env key = .ok none) ∨
    (env key = some EnvVal.nonUnicode ∧
      maybe p env key = .error (Error.new key ValueError.NonUnicode)) ∨
    (∃ s v, env key = some (EnvVal.str s) ∧ p s = .ok v ∧
      maybe p env key = .ok (some v)) ∨
    (∃ s e, env key = some (EnvVal.str s) ∧ p s = .error e ∧
      maybe p env key = .error (Error.new key (ValueError.Parse e))) := by
  rcases henv : env key with _ | val
  · exact Or.inl ⟨rfl, by simp [maybe, var, henv]⟩
  · rcases val with s | _
    · rcases hp : p s with e | v
      · exact Or.inr (Or.inr (Or.inr ⟨s, e, rfl, hp, by simp [maybe, var, henv, hp]⟩))
      · exact Or.inr (Or.inr (Or.inl ⟨s, v, rfl, hp, by simp [maybe, var, henv, hp]⟩))
    · exact Or.inr (Or.inl ⟨rfl, by simp [maybe, var, henv]⟩)

theorem maybe_of_absent {T E : Type} (p : String → Except E T) {env : Env}
    {key : String} (h : env key = none) : maybe p env key = .ok none := by
  simp [maybe, var, h]

theorem maybe_of_nonUnicode {T E : Type} (p : String → Except E T) {env : Env}
    {key : String} (h : env key = some EnvVal.nonUnicode) :
    maybe p env key = .error (Error.new key ValueError.NonUnicode) := by
  simp [maybe, var, h]

theorem maybe_of_parse_ok {T E : Type} {p : String → Except E T} {env : Env}
    {key s : String} {v : T} (h : env key = some (EnvVal.str s))
    (hp : p s = .ok v) : maybe p env key = .ok (some v) := by
  simp [maybe, var, h, hp]

theorem maybe_of_parse_err {T E : Type} {p : String → Except E T} {env : Env}
    {key s : String} {e : E} (h : env key = some (EnvVal.str s))
    (hp : p s = .error e) :
    maybe p env key = .error (Error.new key (ValueError.Parse e)) := by
  simp [maybe, var, h, hp]

theorem must_of_none {T E : Type} {p : String → Except E T} {env : Env}
    {key : String} (h : maybe p env key = .ok none) :
    must p env key = .error (Error.new key MustError.NotSet) := by
  simp [must, h]

theorem must_of_some {T E : Type} {p : String → Except E T} {env : Env}
    {key : String} {v : T} (h : maybe p env key = .ok (some v)) :
    must p env key = .ok v := by
  simp [must, h]

theorem must_of_error {T E : Type} {p : String → Except E T} {env : Env}
    {key : String} {err : Error (ValueError E)}
    (h : maybe p env key = .error err) :
    must p env key = .error (err.map_reason MustError.Value) := by
  simp [must, h]

theorem or_of_none {T E : Type} {p : String → Except E T} {env : Env}
    {key : String} (d : T) (h : maybe p env key = .ok none) :
    Envfury.or p env key d = .ok d := by
  simp [Envfury.or, h]

theorem or_of_some {T E : Type} {p : String → Except E T} {env : Env}
    {key : String} {v : T} (d : T) (h : maybe p env key = .ok (some v)) :
    Envfury.or p env key d = .ok v := by
  simp [Envfury.or, h]

theorem or_of_error {T E : Type} {p : String → Except E T} {env : Env}
    {key : String} {err : Error (ValueError E)} (d : T)
    (h : maybe p env key = .error err) :
    Envfury.or p env key d = .error err := by
  simp [Envfury.or, h]

theorem or_else_eq_or {T E : Type} (p : String → Except E T) (env : Env)
    (key : String) (f : Unit → T) :
    or_else p env key f = Envfury.or p env key (f ()) := by
  rcases hm : maybe p env key with err | (_ | v) <;>
    simp [or_else, Envfury.or, unwrap_or_else, hm]

theorem or_else_count_fst {T E : Type} (p : String → Except E T) (env : Env)
    (key : String) (f : Unit → T) :
    (or_else_count p env key f).1 = or_else p env key f := by
  rcases hm : maybe p env key with err | (_ | v) <;>
    simp [or_else, or_else_count, unwrap_or_else, unwrap_or_else_count, hm]

theorem or_else_count_of_none {T E : Type} {p : String → Except E T}
    {env : Env} {key : String} (f : Unit → T)
    (h : maybe p env key = .ok none) :
    (or_else_count p env key f).2 = 1 := by
  simp [or_else_count, unwrap_or_else_count, h]

theorem or_else_count_of_some {T E : Type} {p : String → Except E T}
    {env : Env} {key : String} {v : T} (f : Unit → T)
    (h : maybe p env key = .ok (some v)) :
    (or_else_count p env key f).2 = 0 := by
  simp [or_else_count, unwrap_or_else_count, h]

theorem or_else_count_of_error {T E : Type} {p : String → Except E T}
    {env : Env} {key : String} {err : Error (ValueError E)} (f : Unit → T)
    (h : maybe p env key = .error err) :
    (or_else_count p env key f).2 = 0 := by
  simp [or_else_count, unwrap_or_else_count, h]

theorem or_parse_of_error {T E : Type} {p : String → Except E T} {env : Env}
    {key : String} {err : Error (ValueError E)} (ds : String)
    (h : maybe p env key = .error err) :
    or_parse p env key ds = .error (err.map_reason OrParseError.Value) := by
  simp [or_parse, h]

theorem or_parse_of_some {T E : Type} {p : String → Except E T} {env : Env}
    {key : String} {v : T} (ds : String) (h : maybe p env key = .ok (some v)) :
    or_parse p env key ds = .ok v := by
  simp [or_parse, h]

theorem or_parse_of_none_ok {T E : Type} {p : String → Except E T} {env : Env}
    {key : String} {ds : String} {v : T} (h : maybe p env key = .ok none)
    (hp : p ds = .ok v) : or_parse p env key ds = .ok v := by
  simp [or_parse, h, hp]

theorem or_parse_of_none_err {T E : Type} {p : String → Except E T} {env : Env}
    {key : String} {ds : String} {e : E} (h : maybe p env key = .ok none)
    (hp : p ds = .error e) :
    or_parse p env key ds =
      .error (Error.new key (OrParseError.ParseDefault e)) := by
  simp [or_parse, h, hp]

/-- Inversion: every error produced by `maybe` is built with the queried
key and either the `NonUnicode` or a `Parse` reason. -/
theorem maybe_error_inv {T E : Type} {p : String → Except E T} {env : Env}
    {key : String} {err : Error (ValueError E)}
    (h : maybe p env key = .error err) :
    err = Error.new key ValueError.NonUnicode ∨
    ∃ e, err = Error.new key (ValueError.Parse e) := by
  rcases maybe_total p env key with ⟨_, hm⟩ | ⟨_, hm⟩ | ⟨s, v, _, _, hm⟩ |
    ⟨s, e, _, _, hm⟩ <;> rw [hm] at h
  · exact Except.noConfusion h
  · injection h with h
    exact Or.inl h.symm
  · exact Except.noConfusion h
  · injection h with h
    exact Or.inr ⟨e, h.symm⟩

theorem must_error_inv {T E : Type} {p : String → Except E T} {env : Env}
    {key : String} {err : Error (MustError E)}
    (h : must p env key = .error err) :
    err = Error.new key MustError.NotSet ∨
    ∃ v, err = Error.new key (MustError.Value v) := by
  rcases hm : maybe p env key with e0 | (_ | v)
  · have h2 := (must_of_error hm).symm.trans h
    injection h2 with h2
    rcases maybe_error_inv hm with rfl | ⟨e, rfl⟩
    · exact Or.inr ⟨ValueError.NonUnicode, h2.symm⟩
    · exact Or.inr ⟨ValueError.Parse e, h2.symm⟩
  · have h2 := (must_of_none hm).symm.trans h
    injection h2 with h2
    exact Or.inl h2.symm
  · have h2 := (must_of_some hm).symm.trans h
    exact Except.noConfusion h2

theorem or_error_inv {T E : Type} {p : String → Except E T} {env : Env}
    {key : String} {d : T} {err : Error (ValueError E)}
    (h : Envfury.or p env key d = .error err) :
    maybe p env key = .error err := by
  rcases hm : maybe p env key with e0 | (_ | v)
  · have h2 := (or_of_error d hm).symm.trans h
    injection h2 with h2
    exact congrArg Except.error h2
  · exact Except.noConfusion ((or_of_none d hm).symm.trans h)
  · exact Except.noConfusion ((or_of_some d hm).symm.trans h)

theorem or_else_error_inv {T E : Type} {p : String → Except E T} {env : Env}
    {key : String} {f : Unit → T} {err : Error (ValueError E)}
    (h : or_else p env key f = .error err) :
    maybe p env key = .error err := by
  rw [or_else_eq_or] at h
  exact or_error_inv h

theorem or_parse_error_inv {T E : Type} {p : String → Except E T} {env : Env}
    {key : String} {ds : String} {err : Error (OrParseError E)}
    (h : or_parse p env key ds = .error err) :
    (∃ e0, maybe p env key = .error e0 ∧
      err = e0.map_reason OrParseError.Value) ∨
    (∃ e, maybe p env key = .ok none ∧ p ds = .error e ∧
      err = Error.new key (OrParseError.ParseDefault e)) := by
  rcases hm : maybe p env key with e0 | (_ | v)
  · have h2 := (or_parse_of_error ds hm).symm.trans h
    injection h2 with h2
    exact Or.inl ⟨e0, rfl, h2.symm⟩
  · rcases hp : p ds with e | v
    · have h2 := (or_parse_of_none_err hm hp).symm.trans h
      injection h2 with h2
      exact Or.inr ⟨e, rfl, rfl, h2.symm⟩
    · exact Except.noConfusion ((or_parse_of_none_ok hm hp).symm.trans h)
  · exact Except.noConfusion ((or_parse_of_some ds hm).symm.trans h)

/-! ### Claim theorems -/

/-- C1: for every key, `maybe` returns `Ok(None)` when the variable is
absent, `Err` with the key and reason `NonUnicode` when the value is not
valid Unicode, `Err` with the key and reason `Parse(inner)` when the value
is text whose parse fails, and `Ok(Some(v))` when the parse succeeds. -/
theorem maybe_spec {T E : Type} (p : String → Except E T) (env : Env)
    (key : String) :
    (env key = none → maybe p env key = .ok none) ∧
    (env key = some EnvVal.nonUnicode →
      maybe p env key = .error (Error.new key ValueError.NonUnicode)) ∧
    (∀ s, env key = some (EnvVal.str s) →
      (∀ e, p s = .error e →
        maybe p env key = .error (Error.new key (ValueError.Parse e))) ∧
      (∀ v, p s = .ok v → maybe p env key = .ok (some v))) := by
  refine ⟨fun h => maybe_of_absent p h, fun h => maybe_of_nonUnicode p h,
    fun s hs => ⟨fun e he => maybe_of_parse_err hs he,
      fun v hv => maybe_of_parse_ok hs hv⟩⟩

/-- Witness for C1 on the concrete fixtures: all four branches realized. -/
theorem maybe_spec_witness :
    maybe parseNat testEnv "MISSING" = .ok none ∧
    maybe parseNat testEnv "NU" = .error (Error.new "NU" ValueError.NonUnicode) ∧
    maybe parseNat testEnv "BAD" =
      .error (Error.new "BAD" (ValueError.Parse "invalid digit")) ∧
    maybe parseNat testEnv "PORT" = .ok (some 8080) :=
  ⟨(maybe_spec parseNat testEnv "MISSING").1 rfl,
   (maybe_spec parseNat testEnv "NU").2.1 rfl,
   ((maybe_spec parseNat testEnv "BAD").2.2 "abc" rfl).1 "invalid digit" rfl,
   ((maybe_spec parseNat testEnv "PORT").2.2 "8080" rfl).2 8080 rfl⟩

/-- C2: `must` fails with `NotSet` exactly when `maybe` yields no value,
succeeds with `v` exactly when `maybe` yields `Some(v)`, and re-wraps any
`maybe` error via `map_reason MustError.Value`, keeping the key. -/
theorem must_spec {T E : Type} (p : String → Except E T) (env : Env)
    (key : String) :
    (maybe p env key = .ok none ↔
      must p env key = .error (Error.new key MustError.NotSet)) ∧
    (∀ v : T, maybe p env key = .ok (some v) ↔ must p env key = .ok v) ∧
    (∀ err, maybe p env key = .error err →
      must p env key = .error (err.map_reason MustError.Value)) := by
  rcases hm : maybe p env key with err | (_ | v) <;>
    simp [must, hm, Error.map_reason, Error.new]

/-- Witness for C2: the required-variable cases realized on the fixtures. -/
theorem must_spec_witness :
    must parseNat testEnv "MISSING" =
      .error (Error.new "MISSING" MustError.NotSet) ∧
    must parseNat testEnv "PORT" = .ok 8080 ∧
    (maybe parseNat testEnv "NU" = .error (Error.new "NU" ValueError.NonUnicode) ∧
      must parseNat testEnv "NU" =
        .error (Error.new "NU" (MustError.Value ValueError.NonUnicode))) :=
  ⟨(must_spec parseNat testEnv "MISSING").1.mp rfl,
   ((must_spec parseNat testEnv "PORT").2.1 8080).mp rfl,
   ⟨rfl, (must_spec parseNat testEnv "NU").2.2
      (Error.new "NU" ValueError.NonUnicode) rfl⟩⟩

/-- C3: `or_parse` re-wraps `maybe` errors via `map_reason
OrParseError.Value`; when the variable yields a value it returns it
(never parsing the default); when the variable is absent it parses the
default text, failing with `ParseDefault` and the queried key. -/
theorem or_parse_spec {T E : Type} (p : String → Except E T) (env : Env)
    (key : String) (d : String) :
    (∀ err, maybe p env key = .error err →
      or_parse p env key d = .error (err.map_reason OrParseError.Value)) ∧
    (∀ v, maybe p env key = .ok (some v) → or_parse p env key d = .ok v) ∧
    (maybe p env key = .ok none →
      (∀ v, p d = .ok v → or_parse p env key d = .ok v) ∧
      (∀ e, p d = .error e →
        or_parse p env key d =
          .error (Error.new key (OrParseError.ParseDefault e)))) := by
  refine ⟨fun err h => by simp [or_parse, h],
    fun v h => by simp [or_parse, h],
    fun h => ⟨fun v hp => by simp [or_parse, h, hp],
      fun e hp => by simp [or_parse, h, hp]⟩⟩

/-- Witness for C3: error re-wrap, set-variable, parsed default and
unparseable default, all on the fixtures. -/
theorem or_parse_spec_witness :
    or_parse parseNat testEnv "NU" "5" =
      .error (Error.new "NU" (OrParseError.Value ValueError.NonUnicode)) ∧
    or_parse parseNat testEnv "PORT" "5" = .ok 8080 ∧
    or_parse parseNat testEnv "MISSING" "5" = .ok 5 ∧
    or_parse parseNat testEnv "MISSING" "xyz" =
      .error (Error.new "MISSING" (OrParseError.ParseDefault "invalid digit")) :=
  ⟨(or_parse_spec parseNat testEnv "NU" "5").1
      (Error.new "NU" ValueError.NonUnicode) rfl,
   (or_parse_spec parseNat testEnv "PORT" "5").2.1 8080 rfl,
   ((or_parse_spec parseNat testEnv "MISSING" "5").2.2 rfl).1 5 rfl,
   ((or_parse_spec parseNat testEnv "MISSING" "xyz").2.2 rfl).2
      "invalid digit" rfl⟩

/-- C5: `or` returns the default unchanged when the variable is absent,
the parsed value (ignoring the default) when it is set and parses, and
propagates any `maybe` error unchanged. -/
theorem or_spec {T E : Type} (p : String → Except E T) (env : Env)
    (key : String) (d : T) :
    (maybe p env key = .ok none → Envfury.or p env key d = .ok d) ∧
    (∀ v, maybe p env key = .ok (some v) → Envfury.or p env key d = .ok v) ∧
    (∀ err, maybe p env key = .error err →
      Envfury.or p env key d = .error err) := by
  refine ⟨fun h => by simp [Envfury.or, h],
    fun v h => by simp [Envfury.or, h],
    fun err h => by simp [Envfury.or, h]⟩

/-- Witness for C5: default used only on absence, errors propagated. -/
theorem or_spec_witness :
    Envfury.or parseNat testEnv "MISSING" 30 = .ok 30 ∧
    Envfury.or parseNat testEnv "PORT" 30 = .ok 8080 ∧
    Envfury.or parseNat testEnv "BAD" 30 =
      .error (Error.new "BAD" (ValueError.Parse "invalid digit")) :=
  ⟨(or_spec parseNat testEnv "MISSING" 30).1 rfl,
   (or_spec parseNat testEnv "PORT" 30).2.1 8080 rfl,
   (or_spec parseNat testEnv "BAD" 30).2.2
      (Error.new "BAD" (ValueError.Parse "invalid digit")) rfl⟩

/-- C4: every error returned by the five retrieval functions carries the
queried key and exactly one concrete reason constructor, and `must` /
`or_parse` re-wrap a `maybe` error keeping its inner reason and key. -/
theorem error_invariant_spec {T E : Type} (p : String → Except E T)
    (env : Env) (key : String) (d : T) (f : Unit → T) (ds : String) :
    (∀ err, maybe p env key = .error err → err.key = key ∧
      (err.reason = ValueError.NonUnicode ∨
        ∃ e, err.reason = ValueError.Parse e)) ∧
    (∀ err, must p env key = .error err → err.key = key ∧
      (err.reason = MustError.NotSet ∨
        ∃ v, err.reason = MustError.Value v)) ∧
    (∀ err, Envfury.or p env key d = .error err → err.key = key) ∧
    (∀ err, or_else p env key f = .error err → err.key = key) ∧
    (∀ err, or_parse p env key ds = .error err → err.key = key ∧
      ((∃ v, err.reason = OrParseError.Value v) ∨
        ∃ e, err.reason = OrParseError.ParseDefault e)) ∧
    (∀ err, maybe p env key = .error err →
      must p env key =
        .error (Error.new err.key (MustError.Value err.reason)) ∧
      or_parse p env key ds =
        .error (Error.new err.key (OrParseError.Value err.reason))) := by
  refine ⟨?_, ?_, ?_, ?_, ?_, ?_⟩
  · intro err h
    rcases maybe_error_inv h with rfl | ⟨e, rfl⟩
    · exact ⟨rfl, Or.inl rfl⟩
    · exact ⟨rfl, Or.inr ⟨e, rfl⟩⟩
  · intro err h
    rcases must_error_inv h with rfl | ⟨v, rfl⟩
    · exact ⟨rfl, Or.inl rfl⟩
    · exact ⟨rfl, Or.inr ⟨v, rfl⟩⟩
  · intro err h
    rcases maybe_error_inv (or_error_inv h) with rfl | ⟨e, rfl⟩ <;> rfl
  · intro err h
    rcases maybe_error_inv (or_else_error_inv h) with rfl | ⟨e, rfl⟩ <;> rfl
  · intro err h
    rcases or_parse_error_inv h with ⟨e0, hm, rfl⟩ | ⟨e, _, _, rfl⟩
    · rcases maybe_error_inv hm with rfl | ⟨e, rfl⟩
      · exact ⟨rfl, Or.inl ⟨ValueError.NonUnicode, rfl⟩⟩
      · exact ⟨rfl, Or.inl ⟨ValueError.Parse e, rfl⟩⟩
    · exact ⟨rfl, Or.inr ⟨e, rfl⟩⟩
  · intro err h
    exact ⟨must_of_error h, or_parse_of_error ds h⟩

/-- Witness for C4: the invariant realized on a non-Unicode entry. -/
theorem error_invariant_spec_witness :
    (Error.new "NU" (ValueError.NonUnicode : ValueError String)).key = "NU" ∧
    must parseNat testEnv "NU" =
      .error (Error.new "NU" (MustError.Value ValueError.NonUnicode)) ∧
    or_parse parseNat testEnv "NU" "5" =
      .error (Error.new "NU" (OrParseError.Value ValueError.NonUnicode)) :=
  ⟨((error_invariant_spec parseNat testEnv "NU" 30 (fun _ => 30) "5").1
      (Error.new "NU" ValueError.NonUnicode) rfl).1,
   ((error_invariant_spec parseNat testEnv "NU" 30 (fun _ => 30) "5").2.2.2.2.2
      (Error.new "NU" ValueError.NonUnicode) rfl).1,
   ((error_invariant_spec parseNat testEnv "NU" 30 (fun _ => 30) "5").2.2.2.2.2
      (Error.new "NU" ValueError.NonUnicode) rfl).2⟩

/-- C6: `or_else` behaves exactly like `or` with default `f()`, and the
callback is invoked exactly once when the variable is absent and never
when it is set or when `maybe` fails. -/
theorem or_else_spec {T E : Type} (p : String → Except E T) (env : Env)
    (key : String) (f : Unit → T) :
    or_else p env key f = Envfury.or p env key (f ()) ∧
    (or_else_count p env key f).1 = or_else p env key f ∧
    (maybe p env key = .ok none → (or_else_count p env key f).2 = 1) ∧
    (∀ v, maybe p env key = .ok (some v) →
      (or_else_count p env key f).2 = 0) ∧
    (∀ err, maybe p env key = .error err →
      (or_else_count p env key f).2 = 0) :=
  ⟨or_else_eq_or p env key f, or_else_count_fst p env key f,
   fun h => or_else_count_of_none f h,
   fun _ h => or_else_count_of_some f h,
   fun _ h => or_else_count_of_error f h⟩

/-- Witness for C6: callback invoked once on absence, zero times when the
variable is set or unparseable. -/
theorem or_else_spec_witness :
    or_else parseNat testEnv "MISSING" (fun _ => 30) =
      Envfury.or parseNat testEnv "MISSING" 30 ∧
    (or_else_count parseNat testEnv "MISSING" (fun _ => 30)).2 = 1 ∧
    (or_else_count parseNat testEnv "PORT" (fun _ => 30)).2 = 0 ∧
    (or_else_count parseNat testEnv "BAD" (fun _ => 30)).2 = 0 :=
  ⟨(or_else_spec parseNat testEnv "MISSING" (fun _ => 30)).1,
   (or_else_spec parseNat testEnv "MISSING" (fun _ => 30)).2.2.1 rfl,
   (or_else_spec parseNat testEnv "PORT" (fun _ => 30)).2.2.2.1 8080 rfl,
   (or_else_spec parseNat testEnv "BAD" (fun _ => 30)).2.2.2.2
      (Error.new "BAD" (ValueError.Parse "invalid digit")) rfl⟩

/-- C7: parsing through the `Custom` wrapper equals the override
conversion with a successful result wrapped in `Custom` and any error
returned unchanged; on the `custom.rs` example override, `must` yields
`Custom 1` for `"one"` and a `Parse` error wrapping the override's
message for `"three"`. -/
theorem custom_spec :
    (∀ (T E : Type) (q : String → Except E T) (s : String),
      Custom.from_str q s = Except.map Custom.mk (q s)) ∧
    must (Custom.from_str oneTwoFromStr) envKOne "K" = .ok (Custom.mk 1) ∧
    must (Custom.from_str oneTwoFromStr) envKThree "K" =
      .error (Error.new "K"
        (MustError.Value (ValueError.Parse "not \"one\" or \"two\""))) := by
  refine ⟨fun T E q s => ?_, rfl, rfl⟩
  cases hq : q s <;> simp [Custom.from_str, Except.map, hq]

/-- C8: when the variable is present with text `s` that `T` cannot parse,
all five retrieval functions fail with a `Parse`-classified reason
wrapping the conversion error, and the error's key is the queried key. -/
theorem parse_failure_spec {T E : Type} (p : String → Except E T)
    (env : Env) (key s : String) (e : E) (d : T) (f : Unit → T) (ds : String)
    (hs : env key = some (EnvVal.str s)) (he : p s = .error e) :
    maybe p env key = .error (Error.new key (ValueError.Parse e)) ∧
    must p env key =
      .error (Error.new key (MustError.Value (ValueError.Parse e))) ∧
    Envfury.or p env key d =
      .error (Error.new key (ValueError.Parse e)) ∧
    or_else p env key f =
      .error (Error.new key (ValueError.Parse e)) ∧
    or_parse p env key ds =
      .error (Error.new key (OrParseError.Value (ValueError.Parse e))) := by
  have hm := maybe_of_parse_err hs he
  refine ⟨hm, must_of_error hm, or_of_error d hm, ?_, or_parse_of_error ds hm⟩
  rw [or_else_eq_or]
  exact or_of_error (f ()) hm

/-- Witness for C8 on the unparseable fixture entry. -/
theorem parse_failure_spec_witness :
    maybe parseNat testEnv "BAD" =
      .error (Error.new "BAD" (ValueError.Parse "invalid digit")) ∧
    must parseNat testEnv "BAD" =
      .error (Error.new "BAD" (MustError.Value (ValueError.Parse "invalid digit"))) ∧
    Envfury.or parseNat testEnv "BAD" 30 =
      .error (Error.new "BAD" (ValueError.Parse "invalid digit")) ∧
    or_else parseNat testEnv "BAD" (fun _ => 30) =
      .error (Error.new "BAD" (ValueError.Parse "invalid digit")) ∧
    or_parse parseNat testEnv "BAD" "5" =
      .error (Error.new "BAD" (OrParseError.Value (ValueError.Parse "invalid digit"))) :=
  parse_failure_spec parseNat testEnv "BAD" "abc" "invalid digit" 30
    (fun _ => 30) "5" rfl rfl

/-- C9: `maybe`, `must` and `or` are pure functions of the queried
environment entry and their arguments; two environment tables that agree
on the key give equal results, so repeated calls under an unchanged
environment return equal results and no state is retained. -/
theorem determinism_spec {T E : Type} (p : String → Except E T)
    (env1 env2 : Env) (key : String) (d : T)
    (h : env1 key = env2 key) :
    maybe p env1 key = maybe p env2 key ∧
    must p env1 key = must p env2 key ∧
    Envfury.or p env1 key d = Envfury.or p env2 key d := by
  have hm : maybe p env1 key = maybe p env2 key := by
    unfold maybe var
    rw [h]
  exact ⟨hm, by simp [must, hm], by simp [Envfury.or, hm]⟩

/-- Witness for C9: two distinct tables agreeing at `PORT`. -/
theorem determinism_spec_witness :
    testEnv "PORT" = testEnvTwo "PORT" ∧
    maybe parseNat testEnv "PORT" = maybe parseNat testEnvTwo "PORT" ∧
    must parseNat testEnv "PORT" = must parseNat testEnvTwo "PORT" ∧
    Envfury.or parseNat testEnv "PORT" 30 =
      Envfury.or parseNat testEnvTwo "PORT" 30 :=
  ⟨rfl, (determinism_spec parseNat testEnv testEnvTwo "PORT" 30 rfl).1,
   (determinism_spec parseNat testEnv testEnvTwo "PORT" 30 rfl).2.1,
   (determinism_spec parseNat testEnv testEnvTwo "PORT" 30 rfl).2.2⟩

/-- C10: a variable set to the empty string is treated as present: the
empty text is handed to the parser, the defaults of `or`, `or_else` and
`or_parse` are never used, and emptiness is not absence. -/
theorem empty_string_spec {T E : Type} (p : String → Except E T)
    (env : Env) (key : String) (d : T) (f : Unit → T) (ds : String)
    (h : env key = some (EnvVal.str "")) :
    (∀ v, p "" = .ok v →
      maybe p env key = .ok (some v) ∧ must p env key = .ok v ∧
      Envfury.or p env key d = .ok v ∧ or_else p env key f = .ok v ∧
      or_parse p env key ds = .ok v) ∧
    (∀ e, p "" = .error e →
      maybe p env key = .error (Error.new key (ValueError.Parse e)) ∧
      must p env key =
        .error (Error.new key (MustError.Value (ValueError.Parse e))) ∧
      Envfury.or p env key d =
        .error (Error.new key (ValueError.Parse e)) ∧
      or_else p env key f =
        .error (Error.new key (ValueError.Parse e)) ∧
      or_parse p env key ds =
        .error (Error.new key (OrParseError.Value (ValueError.Parse e)))) ∧
    maybe p env key ≠ .ok none ∧
    (or_else_count p env key f).2 = 0 ∧
    (∀ d' : T, Envfury.or p env key d' = Envfury.or p env key d) ∧
    (∀ ds' : String, or_parse p env key ds' = or_parse p env key ds) := by
  refine ⟨?_, ?_, ?_, ?_, ?_, ?_⟩
  · intro v hp
    have hm := maybe_of_parse_ok h hp
    refine ⟨hm, must_of_some hm, or_of_some d hm, ?_, or_parse_of_some ds hm⟩
    rw [or_else_eq_or]
    exact or_of_some (f ()) hm
  · intro e hp
    have hm := maybe_of_parse_err h hp
    refine ⟨hm, must_of_error hm, or_of_error d hm, ?_, or_parse_of_error ds hm⟩
    rw [or_else_eq_or]
    exact or_of_error (f ()) hm
  · rcases hp : p "" with e | v
    · rw [maybe_of_parse_err h hp]
      intro hc
      exact Except.noConfusion hc
    · rw [maybe_of_parse_ok h hp]
      intro hc
      exact Option.noConfusion (Except.ok.inj hc)
  · rcases hp : p "" with e | v
    · exact or_else_count_of_error f (maybe_of_parse_err h hp)
    · exact or_else_count_of_some f (maybe_of_parse_ok h hp)
  · intro d'
    rcases hp : p "" with e | v
    · rw [or_of_error d' (maybe_of_parse_err h hp),
        or_of_error d (maybe_of_parse_err h hp)]
    · rw [or_of_some d' (maybe_of_parse_ok h hp),
        or_of_some d (maybe_of_parse_ok h hp)]
  · intro ds'
    rcases hp : p "" with e | v
    · rw [or_parse_of_error ds' (maybe_of_parse_err h hp),
        or_parse_of_error ds (maybe_of_parse_err h hp)]
    · rw [or_parse_of_some ds' (maybe_of_parse_ok h hp),
        or_parse_of_some ds (maybe_of_parse_ok h hp)]

/-- Witness for C10 on the empty-string fixture entry: present, parsed
(here failing to parse as a number), defaults unused. -/
theorem empty_string_spec_witness :
    maybe parseNat testEnv "EMPTY" =
      .error (Error.new "EMPTY" (ValueError.Parse "empty input")) ∧
    Envfury.or parseNat testEnv "EMPTY" 30 =
      .error (Error.new "EMPTY" (ValueError.Parse "empty input")) ∧
    maybe parseNat testEnv "EMPTY" ≠ .ok none ∧
    (or_else_count parseNat testEnv "EMPTY" (fun _ => 30)).2 = 0 :=
  ⟨((empty_string_spec parseNat testEnv "EMPTY" 30 (fun _ => 30) "5" rfl).2.1
      "empty input" rfl).1,
   ((empty_string_spec parseNat testEnv "EMPTY" 30 (fun _ => 30) "5" rfl).2.1
      "empty input" rfl).2.2.1,
   (empty_string_spec parseNat testEnv "EMPTY" 30 (fun _ => 30) "5" rfl).2.2.1,
   (empty_string_spec parseNat testEnv "EMPTY" 30 (fun _ => 30) "5" rfl).2.2.2.1⟩

end Envfury
